import Mathlib

set_option maxRecDepth 100000

/-
Verification of the seamless directional image-extension (outpainting)
pipeline of the campaign_generator repository, file
app/campaign_generator/ai_service.py.

The Python code manipulates PIL images.  We embed images as a structure
holding a width, a height and a pixel function.  All PIL operations the
embedded code uses (new, crop, paste, paste with an L-mode mask, invert,
transpose/flip, resize, linear_gradient, GaussianBlur) act on the four
RGBA channels independently and identically, so the model carries one
channel per pixel: every theorem below is a statement about each colour
channel separately, which is exactly how the specification phrases its
per-channel properties.

PNG encode/decode steps in the source are lossless and are dropped from
the model; the final JPEG encode of the fallback output is outside the
pixel-level properties treated here.
-/

namespace CGen

/-- A single-channel in-memory image: width, height and a pixel map.
Pixels are only meaningful for x < w and y < h. -/
structure Img where
  w : Nat
  h : Nat
  px : Nat → Nat → Nat

/-- PIL Image.new(mode, (w, h), c): a constant image. -/
def Img.new (w h c : Nat) : Img := ⟨w, h, fun _ _ => c⟩

/-- PIL img.crop((l, t, r, b)): the (r-l)x(b-t) sub-image whose pixel
(x, y) is the source pixel (l+x, t+y); regions outside the source are
filled with 0, as PIL fills out-of-bounds crops with zero.  The box
coordinates are integers: PIL accepts negative box corners (the left
and up seam crops of the source can produce a negative left or top)
and pads the part of the box lying outside the source. -/
def Img.crop (img : Img) (l t r b : Int) : Img :=
  ⟨(r - l).toNat, (b - t).toNat, fun x y =>
    if 0 ≤ l + (x : Int) ∧ l + (x : Int) < img.w ∧
        0 ≤ t + (y : Int) ∧ t + (y : Int) < img.h then
      img.px (l + (x : Int)).toNat (t + (y : Int)).toNat
    else 0⟩

/-- PIL dst.paste(src, (a, b)) without a mask: a direct copy of every
channel of src into the rectangle with corner (a, b), clipped to dst.
Offsets are integers because the source pastes at negative offsets. -/
def Img.paste (dst src : Img) (a b : Int) : Img :=
  ⟨dst.w, dst.h, fun x y =>
    if a ≤ (x : Int) ∧ (x : Int) < a + src.w ∧ b ≤ (y : Int) ∧ (y : Int) < b + src.h then
      src.px ((x : Int) - a).toNat ((y : Int) - b).toNat
    else dst.px x y⟩

/-- Pillow fixed-point multiply-divide by 255 used by paste blending:
MULDIV255(a, b) with tmp = a*b + 128 computes ((tmp >> 8) + tmp) >> 8,
which equals the rounded a*b/255 for byte inputs. -/
def muldiv255 (a b : Nat) : Nat :=
  ((a * b + 128) / 256 + (a * b + 128)) / 256

/-- Pillow per-channel blend used by paste with an L-mode mask m:
out = MULDIV255(background, 255 - m) + MULDIV255(source, m). -/
def blendPx (m d s : Nat) : Nat :=
  muldiv255 d (255 - m) + muldiv255 s m

/-- The blended image computed by a masked paste whose sizes match:
inside the pasted rectangle every channel is blended between the
existing pixel and the source pixel with the mask value as weight. -/
def pasteMaskImg (dst src : Img) (a b : Int) (mask : Img) : Img :=
  ⟨dst.w, dst.h, fun x y =>
    if a ≤ (x : Int) ∧ (x : Int) < a + src.w ∧ b ≤ (y : Int) ∧ (y : Int) < b + src.h then
      blendPx (mask.px ((x : Int) - a).toNat ((y : Int) - b).toNat)
        (dst.px x y) (src.px ((x : Int) - a).toNat ((y : Int) - b).toNat)
    else dst.px x y⟩

/-- PIL dst.paste(src, (a, b), mask) with an L-mode mask.  With a
2-tuple box PIL expands the box to the size of src and then requires
the mask to have exactly that size, raising ValueError (images do not
match) otherwise; none models that exception. -/
def Img.pasteMask (dst src : Img) (a b : Int) (mask : Img) : Option Img :=
  if mask.w = src.w ∧ mask.h = src.h then some (pasteMaskImg dst src a b mask)
  else none

/-- PIL ImageChops.invert: 255 - value. -/
def Img.invert (img : Img) : Img :=
  ⟨img.w, img.h, fun x y => 255 - img.px x y⟩

/-- PIL img.transpose(Image.FLIP_LEFT_RIGHT). -/
def Img.flipLR (img : Img) : Img :=
  ⟨img.w, img.h, fun x y => img.px (img.w - 1 - x) y⟩

/-- PIL img.transpose(Image.FLIP_TOP_BOTTOM). -/
def Img.flipTB (img : Img) : Img :=
  ⟨img.w, img.h, fun x y => img.px x (img.h - 1 - y)⟩

/-- One-dimensional resampling of m source cells to n destination cells:
destination cell j is the normalized weighted average of the source
values, a source cell weighted by the measure of its overlap with the
destination interval (intervals taken in units of 1/n source cells; the
weights of one destination cell always sum to m), the result rounded
half up.  This models the normalized symmetric convolution Pillow
applies per axis in Image.resize. -/
def resize1D (m n : Nat) (f : Nat → Nat) (j : Nat) : Nat :=
  (2 * ∑ i in Finset.range m,
    f i * (min ((j + 1) * m) ((i + 1) * n) - max (j * m) (i * n)) + m) / (2 * m)

/-- Horizontal resampling pass of PIL Image.resize. -/
def Img.resizeH (img : Img) (w2 : Nat) : Img :=
  ⟨w2, img.h, fun x y => resize1D img.w w2 (fun i => img.px i y) x⟩

/-- Vertical resampling pass of PIL Image.resize. -/
def Img.resizeV (img : Img) (h2 : Nat) : Img :=
  ⟨img.w, h2, fun x y => resize1D img.h h2 (fun i => img.px x i) y⟩

/-- PIL img.resize((w2, h2)): horizontal pass then vertical pass, as in
the Pillow resampler. -/
def Img.resize (img : Img) (w2 h2 : Nat) : Img :=
  (img.resizeH w2).resizeV h2

/-- PIL Image.linear_gradient(mode L): a 256x256 image running from
black at the top to white at the bottom, pixel (x, y) has value y. -/
def linearGradient : Img := ⟨256, 256, fun _ y => y⟩

/-- Clamp an integer index into the interval 0..hi. -/
def clampIdx (n : Int) (hi : Nat) : Nat := (max 0 (min n hi)).toNat

/-- Horizontal pass of the edge-clamped normalized 5-tap box blur. -/
def Img.boxBlur5H (img : Img) : Img :=
  ⟨img.w, img.h, fun x y =>
    let s := (List.range 5).foldl
      (fun acc k => acc + img.px (clampIdx ((x : Int) + k - 2) (img.w - 1)) y) 0
    (2 * s + 5) / 10⟩

/-- Vertical pass of the edge-clamped normalized 5-tap box blur. -/
def Img.boxBlur5V (img : Img) : Img :=
  ⟨img.w, img.h, fun x y =>
    let s := (List.range 5).foldl
      (fun acc k => acc + img.px x (clampIdx ((y : Int) + k - 2) (img.h - 1))) 0
    (2 * s + 5) / 10⟩

/-- PIL ImageFilter.GaussianBlur(radius=2), which Pillow realizes as a
sequence of normalized edge-clamped box blurs, modelled as one
normalized edge-clamped box pass per axis.  The theorems below rely
only on the blur being a normalized local average with edge clamping,
not on the exact kernel weights. -/
def Img.gaussianBlurR2 (img : Img) : Img :=
  img.boxBlur5H.boxBlur5V

/-- The four extension directions of the source (the Python code uses
the strings right, left, down, up). -/
inductive Dir
  | left
  | right
  | up
  | down
deriving DecidableEq

/-- The error situations of the embedded pipeline: the ValueError raised
on a non-1024x1024 input, an exception from the synthesis provider call,
the AssertionError of the strip blender, and the ValueError (images do
not match) raised by a masked paste whose mask size differs from the
pasted image. -/
inductive AiErr
  | invalidBaseSize
  | synthesisFailed
  | dimensionMismatch
  | imageMismatch
deriving DecidableEq

/-- From _alpha_ramp: a 0..255 ramp built from linear_gradient by two
resizes; horizontal=true resizes the gradient to (width, 1) and then to
(width, height), otherwise to (1, height) and then to (width, height). -/
def alphaRamp (width height : Nat) (horizontal : Bool) : Img :=
  if horizontal then (linearGradient.resize width 1).resize width height
  else (linearGradient.resize 1 height).resize width height

/-- From _call_images_edit: prompt[:997] + three dots if the prompt is
longer than 1000 characters, otherwise the prompt unchanged.  Python
strings are modelled as character lists. -/
def truncatePrompt (p : List Char) : List Char :=
  if 1000 < p.length then p.take 997 ++ ['.', '.', '.'] else p

/-- The seam band tmp computed by the right branch of _blend_strip: the
overlap region taken from the right edge of base and the left edge of
new_strip, pasted with the ramp masks onto a fresh transparent canvas.
In the source, x_overlap_base is max(0, bw - overlap_px), which equals
truncated subtraction.  Either masked paste raises (none) when its mask
size differs from the pasted region, exactly as PIL does. -/
def seamBandRight (base new_strip : Img) (overlap_px : Nat) : Option Img :=
  let overlap_new := new_strip.crop 0 0 overlap_px new_strip.h
  let overlap_old := base.crop ((base.w - overlap_px : Nat) : Int) 0 base.w base.h
  let ramp := alphaRamp overlap_px base.h true
  (((Img.new overlap_px base.h 0).pasteMask overlap_old 0 0 ramp.invert).bind
    fun tmp1 => tmp1.pasteMask overlap_new 0 0 ramp)

/-- The band image produced by the right seam pastes when both mask
checks pass. -/
def seamBandRightImg (base new_strip : Img) (overlap_px : Nat) : Img :=
  pasteMaskImg
    (pasteMaskImg (Img.new overlap_px base.h 0)
      (base.crop ((base.w - overlap_px : Nat) : Int) 0 base.w base.h) 0 0
      (alphaRamp overlap_px base.h true).invert)
    (new_strip.crop 0 0 overlap_px new_strip.h) 0 0
    (alphaRamp overlap_px base.h true)

/-- The seam band tmp computed by the left branch of _blend_strip: the
overlap region taken from the left edge of base and the right edge of
new_strip, blended with the left-right flipped ramp.  The crop left
corner sw - overlap_px is a Python integer and may be negative. -/
def seamBandLeft (base new_strip : Img) (overlap_px : Nat) : Option Img :=
  let overlap_new :=
    new_strip.crop ((new_strip.w : Int) - overlap_px) 0 new_strip.w new_strip.h
  let overlap_old := base.crop 0 0 overlap_px base.h
  let ramp := (alphaRamp overlap_px base.h true).flipLR
  (((Img.new overlap_px base.h 0).pasteMask overlap_old 0 0 ramp.invert).bind
    fun tmp1 => tmp1.pasteMask overlap_new 0 0 ramp)

/-- The band image produced by the left seam pastes when both mask
checks pass. -/
def seamBandLeftImg (base new_strip : Img) (overlap_px : Nat) : Img :=
  pasteMaskImg
    (pasteMaskImg (Img.new overlap_px base.h 0)
      (base.crop 0 0 overlap_px base.h) 0 0
      ((alphaRamp overlap_px base.h true).flipLR).invert)
    (new_strip.crop ((new_strip.w : Int) - overlap_px) 0 new_strip.w new_strip.h) 0 0
    ((alphaRamp overlap_px base.h true).flipLR)

/-- The seam band tmp computed by the down branch of _blend_strip. -/
def seamBandDown (base new_strip : Img) (overlap_px : Nat) : Option Img :=
  let overlap_new := new_strip.crop 0 0 new_strip.w overlap_px
  let overlap_old := base.crop 0 ((base.h - overlap_px : Nat) : Int) base.w base.h
  let ramp := alphaRamp new_strip.w overlap_px false
  (((Img.new base.w overlap_px 0).pasteMask overlap_old 0 0 ramp.invert).bind
    fun tmp1 => tmp1.pasteMask overlap_new 0 0 ramp)

/-- The band image produced by the down seam pastes when both mask
checks pass. -/
def seamBandDownImg (base new_strip : Img) (overlap_px : Nat) : Img :=
  pasteMaskImg
    (pasteMaskImg (Img.new base.w overlap_px 0)
      (base.crop 0 ((base.h - overlap_px : Nat) : Int) base.w base.h) 0 0
      (alphaRamp new_strip.w overlap_px false).invert)
    (new_strip.crop 0 0 new_strip.w overlap_px) 0 0
    (alphaRamp new_strip.w overlap_px false)

/-- The seam band tmp computed by the up branch of _blend_strip.  The
crop top corner sh - overlap_px is a Python integer and may be
negative. -/
def seamBandUp (base new_strip : Img) (overlap_px : Nat) : Option Img :=
  let overlap_new :=
    new_strip.crop 0 ((new_strip.h : Int) - overlap_px) new_strip.w new_strip.h
  let overlap_old := base.crop 0 0 base.w overlap_px
  let ramp := (alphaRamp new_strip.w overlap_px false).flipTB
  (((Img.new base.w overlap_px 0).pasteMask overlap_old 0 0 ramp.invert).bind
    fun tmp1 => tmp1.pasteMask overlap_new 0 0 ramp)

/-- The band image produced by the up seam pastes when both mask checks
pass. -/
def seamBandUpImg (base new_strip : Img) (overlap_px : Nat) : Img :=
  pasteMaskImg
    (pasteMaskImg (Img.new base.w overlap_px 0)
      (base.crop 0 0 base.w overlap_px) 0 0
      ((alphaRamp new_strip.w overlap_px false).flipTB).invert)
    (new_strip.crop 0 ((new_strip.h : Int) - overlap_px) new_strip.w new_strip.h) 0 0
    ((alphaRamp new_strip.w overlap_px false).flipTB)

/-- From _blend_strip: alpha-blend the new strip into the base along the
seam.  The initial mode conversions of the source are identities in the
per-channel model.  The assert of the source raising AssertionError when
neither axis matches is the dimensionMismatch error.  Each direction
first computes the seam band tmp (whose masked pastes raise the PIL
mask-size error when the mask and pasted region disagree, propagated
here as imageMismatch), blends it into a copy of base, and, when the
strip is longer than the overlap, reallocates an enlarged canvas holding
base (right and down) or the remainder followed by the band-blended copy
(left and up), exactly as the source does. -/
def blendStrip (base new_strip : Img) (overlap_px : Nat) (direction : Dir) :
    Except AiErr Img :=
  let bw := base.w
  let bh := base.h
  let sw := new_strip.w
  let sh := new_strip.h
  if bh = sh ∨ bw = sw then
    match direction with
    | .right =>
      match seamBandRight base new_strip overlap_px with
      | none => .error .imageMismatch
      | some tmp =>
        let out := base.paste tmp ((bw - overlap_px : Nat) : Int) 0
        if overlap_px < sw then
          let remainder := new_strip.crop overlap_px 0 sw sh
          .ok ((((Img.new (bw + (sw - overlap_px)) bh 0).paste
            (base.crop 0 0 bw bh) 0 0).paste remainder (bw : Int) 0))
        else .ok out
    | .left =>
      match seamBandLeft base new_strip overlap_px with
      | none => .error .imageMismatch
      | some tmp =>
        let out := base.paste tmp 0 0
        if overlap_px < sw then
          let remainder := new_strip.crop 0 0 ((sw : Int) - overlap_px) sh
          .ok (((Img.new (bw + (sw - overlap_px)) bh 0).paste remainder 0 0).paste
            out ((sw : Int) - overlap_px) 0)
        else .ok out
    | .down =>
      match seamBandDown base new_strip overlap_px with
      | none => .error .imageMismatch
      | some tmp =>
        let out := base.paste tmp 0 ((bh - overlap_px : Nat) : Int)
        if overlap_px < sh then
          let remainder := new_strip.crop 0 overlap_px sw sh
          .ok ((((Img.new bw (bh + (sh - overlap_px)) 0).paste
            (base.crop 0 0 bw bh) 0 0).paste remainder 0 (bh : Int)))
        else .ok out
    | .up =>
      match seamBandUp base new_strip overlap_px with
      | none => .error .imageMismatch
      | some tmp =>
        let out := base.paste tmp 0 0
        if overlap_px < sh then
          let remainder := new_strip.crop 0 0 sw ((sh : Int) - overlap_px)
          .ok (((Img.new bw (bh + (sh - overlap_px)) 0).paste remainder 0 0).paste
            out 0 ((sh : Int) - overlap_px))
        else .ok out
  else .error .dimensionMismatch

/-- The synthesis provider behind the images.edit endpoint: it receives
the context canvas, the mask and the submitted prompt and either returns
an edited image or fails (None models any raised exception, including
network errors and malformed responses). -/
def Provider : Type := Img → Img → List Char → Option Img

/-- From _call_images_edit: the prompt is truncated before submission;
the PNG round trips of canvas and mask are lossless and dropped from the
model, and the base64 decode plus convert(RGBA) of the response is the
identity per channel. -/
def callImagesEdit (σ : Provider) (canvas_rgba mask_rgba : Img) (prompt : List Char) :
    Option Img :=
  σ canvas_rgba mask_rgba (truncatePrompt prompt)

/-- From _extend_direction, step 2: the 1024x1024 canvas with the
original image slid by step_px so that a transparent gap of step_px is
left on the side being extended. -/
def slideCanvas (original_image : Img) (direction : Dir) (step_px : Nat) : Img :=
  let canvas := Img.new 1024 1024 0
  match direction with
  | .right => canvas.paste original_image (-(step_px : Int)) 0
  | .left => canvas.paste original_image (step_px : Int) 0
  | .down => canvas.paste original_image 0 (-(step_px : Int))
  | .up => canvas.paste original_image 0 (step_px : Int)

/-- From _extend_direction, steps 1 and 2: the fully opaque 1024x1024
mask slid by the same offset as the canvas, leaving the gap transparent
(transparent = paint). -/
def slideMask (original_image : Img) (direction : Dir) (step_px : Nat) : Img :=
  let mask := Img.new 1024 1024 255
  let canvas_mask := Img.new 1024 1024 0
  match direction with
  | .right => canvas_mask.paste mask (-(step_px : Int)) 0
  | .left => canvas_mask.paste mask (step_px : Int) 0
  | .down => canvas_mask.paste mask 0 (-(step_px : Int))
  | .up => canvas_mask.paste mask 0 (step_px : Int)

/-- From _extend_direction, step 4: extract the newly painted strip from
the returned tile. -/
def extractStrip (direction : Dir) (step_px : Nat) (tile : Img) : Img :=
  match direction with
  | .right => tile.crop ((1024 : Int) - step_px) 0 1024 1024
  | .left => tile.crop 0 0 step_px 1024
  | .down => tile.crop 0 ((1024 : Int) - step_px) 1024 1024
  | .up => tile.crop 0 0 1024 step_px

/-- From _extend_direction: build the slid canvas and mask from the
given image, send them to the provider, and extract the filled gap; a
provider failure propagates (None). -/
def extendDirection (σ : Provider) (original_image : Img) (direction : Dir)
    (step_px : Nat) (prompt : List Char) : Option Img :=
  (callImagesEdit σ (slideCanvas original_image direction step_px)
    (slideMask original_image direction step_px) prompt).map (extractStrip direction step_px)

/-- From _extend_image_horizontally_fallback: center the square image on
a white 1792x1024 canvas, then tile the blurred quarter-width edge
strips across the margins with one paste per x position, exactly as the
two Python for loops do.  The unused target_aspect_ratio argument of the
source is dropped; the final JPEG encode is outside the pixel model.
The source computes x_offset with Python floor division, which equals
truncated Nat arithmetic for inputs no wider than the target. -/
def extendHorizFallback (square_image : Img) : Img :=
  let original_size := square_image.w
  let landscape_image := Img.new 1792 1024 255
  let x_offset := (1792 - original_size) / 2
  let with_center := landscape_image.paste square_image (x_offset : Int) 0
  let left_extension := (square_image.crop 0 0 (original_size / 4) original_size).gaussianBlurR2
  let right_extension :=
    (square_image.crop (3 * original_size / 4) 0 original_size original_size).gaussianBlurR2
  let filled_left := (List.range x_offset).foldl
    (fun (img : Img) (x : Nat) => img.paste left_extension (x : Int) 0) with_center
  (List.range' (x_offset + original_size) (1792 - (x_offset + original_size))).foldl
    (fun (img : Img) (x : Nat) => img.paste right_extension (x : Int) 0) filled_left

/-- From _extend_image_vertically_fallback: the portrait analog of the
horizontal fallback on a white 1024x1792 canvas.  As in the source,
original_size is the width of the input (size[0]), assumed square. -/
def extendVertFallback (square_image : Img) : Img :=
  let original_size := square_image.w
  let portrait_image := Img.new 1024 1792 255
  let y_offset := (1792 - original_size) / 2
  let with_center := portrait_image.paste square_image 0 (y_offset : Int)
  let top_extension := (square_image.crop 0 0 original_size (original_size / 4)).gaussianBlurR2
  let bottom_extension :=
    (square_image.crop 0 (3 * original_size / 4) original_size original_size).gaussianBlurR2
  let filled_top := (List.range y_offset).foldl
    (fun (img : Img) (y : Nat) => img.paste top_extension 0 (y : Int)) with_center
  (List.range' (y_offset + original_size) (1792 - (y_offset + original_size))).foldl
    (fun (img : Img) (y : Nat) => img.paste bottom_extension 0 (y : Int)) filled_top

/-- The try block of _outpaint_landscape: decode (identity in the
model), check the 1024x1024 precondition (the ValueError raised there is
invalidBaseSize), extend right then left from the original image, and
assemble the 1792x1024 result by pasting the left strip at 0, the
original at 384 and the right strip at 1408.  Any exception of the
provider call is synthesisFailed; as in the source, the left extension
only runs when the right extension succeeded. -/
def outpaintLandscapeTry (σ : Provider) (original_image : Img) (prompt : List Char) :
    Except AiErr Img :=
  if original_image.w = 1024 ∧ original_image.h = 1024 then
    match extendDirection σ original_image .right 384 prompt with
    | none => .error .synthesisFailed
    | some right_strip =>
      match extendDirection σ original_image .left 384 prompt with
      | none => .error .synthesisFailed
      | some left_strip =>
        .ok ((((Img.new 1792 1024 0).paste left_strip 0 0).paste
          original_image 384 0).paste right_strip 1408 0)
  else .error .invalidBaseSize

/-- From _outpaint_landscape: in dev mode the fallback runs directly;
otherwise the try block runs and any raised error is caught by the
catch-all except handler, which substitutes the horizontal fallback. -/
def outpaintLandscape (dev_mode : Bool) (σ : Provider) (square_image : Img)
    (prompt : List Char) : Img :=
  if dev_mode then extendHorizFallback square_image
  else
    match outpaintLandscapeTry σ square_image prompt with
    | .ok img => img
    | .error _ => extendHorizFallback square_image

/-- The try block of _outpaint_vertical: check the 1024x1024
precondition, extend down then up from the original image, and assemble
the 1024x1792 result by pasting the top strip at 0, the original at 384
and the bottom strip at 1408. -/
def outpaintVerticalTry (σ : Provider) (original_image : Img) (prompt : List Char) :
    Except AiErr Img :=
  if original_image.w = 1024 ∧ original_image.h = 1024 then
    match extendDirection σ original_image .down 384 prompt with
    | none => .error .synthesisFailed
    | some bottom_strip =>
      match extendDirection σ original_image .up 384 prompt with
      | none => .error .synthesisFailed
      | some top_strip =>
        .ok ((((Img.new 1024 1792 0).paste top_strip 0 0).paste
          original_image 0 384).paste bottom_strip 0 1408)
  else .error .invalidBaseSize

/-- From _outpaint_vertical: dev mode goes straight to the fallback;
otherwise any error raised in the try block is caught and the vertical
fallback result is returned instead. -/
def outpaintVertical (dev_mode : Bool) (σ : Provider) (square_image : Img)
    (prompt : List Char) : Img :=
  if dev_mode then extendVertFallback square_image
  else
    match outpaintVerticalTry σ square_image prompt with
    | .ok img => img
    | .error _ => extendVertFallback square_image

/-- A provider stub that raises on every call. -/
def failProvider : Provider := fun _ _ _ => none

/-- A provider stub that echoes its context canvas back unchanged. -/
def echoProvider : Provider := fun canvas _ _ => some canvas

/-- A solid white 1024x1024 base image. -/
def whiteBase : Img := Img.new 1024 1024 255

/-- A 1024x1024 base image that is white except for a black column at
x = 100. -/
def colBase : Img := ⟨1024, 1024, fun x _ => if x = 100 then 0 else 255⟩

/- ------------------------------------------------------------------ -/
/- Helper lemmas about the resampling weights and the alpha ramp.      -/
/- ------------------------------------------------------------------ -/

/-- The overlap weight of source cell i for destination cell j written
as a difference of values of a monotone clamping function, so that the
weight sum telescopes. -/
theorem ovWeight_eq (m n j i : Nat) :
    min ((j + 1) * m) ((i + 1) * n) - max (j * m) (i * n)
      = min ((j + 1) * m) (max (j * m) ((i + 1) * n))
        - min ((j + 1) * m) (max (j * m) (i * n)) := by
  omega

/-- The clamping function used to telescope the weight sum is monotone. -/
theorem ovClamp_monotone (m n j : Nat) :
    Monotone (fun k => min ((j + 1) * m) (max (j * m) (k * n))) := by
  intro a b hab
  have h : a * n ≤ b * n := Nat.mul_le_mul_right n hab
  simp only
  omega

/-- The resampling weights of one destination cell j < n sum to m. -/
theorem sum_ovWeights (m n j : Nat) (hj : j < n) :
    ∑ i in Finset.range m, (min ((j + 1) * m) ((i + 1) * n) - max (j * m) (i * n)) = m := by
  rw [Finset.sum_congr rfl fun i _ => ovWeight_eq m n j i,
    Finset.sum_range_tsub (ovClamp_monotone m n j) m]
  have h1 : (j + 1) * m ≤ n * m := Nat.mul_le_mul_right m hj
  have h2 : (j + 1) * m = j * m + m := Nat.succ_mul j m
  have h3 : m * n = n * m := Nat.mul_comm m n
  omega

/-- Resampling a constant signal returns the constant. -/
theorem resize1D_const (m n c j : Nat) (hm : 0 < m) (hj : j < n) :
    resize1D m n (fun _ => c) j = c := by
  unfold resize1D
  rw [← Finset.mul_sum, sum_ovWeights m n j hj]
  have h1 : 2 * (c * m) + m = m * (2 * c + 1) := by ring
  have h2 : 2 * m = m * 2 := by ring
  rw [h1, h2, Nat.mul_div_mul_left _ _ hm]
  omega

/-- Resampling m cells to m cells is the identity. -/
theorem resize1D_id (m : Nat) (f : Nat → Nat) (j : Nat) (hj : j < m) :
    resize1D m m f j = f j := by
  have hm : 0 < m := lt_of_le_of_lt (Nat.zero_le j) hj
  unfold resize1D
  have hs : ∑ i in Finset.range m,
      f i * (min ((j + 1) * m) ((i + 1) * m) - max (j * m) (i * m)) = f j * m := by
    rw [Finset.sum_eq_single j]
    · have h2 : (j + 1) * m = j * m + m := Nat.succ_mul j m
      have h3 : min ((j + 1) * m) ((j + 1) * m) - max (j * m) (j * m) = m := by omega
      rw [h3]
    · intro i hi hne
      rcases Nat.lt_or_ge i j with hlt | hge
      · have h1 : (i + 1) * m ≤ j * m := Nat.mul_le_mul_right m hlt
        have h2 : (j + 1) * m = j * m + m := Nat.succ_mul j m
        have h3 : min ((j + 1) * m) ((i + 1) * m) - max (j * m) (i * m) = 0 := by omega
        rw [h3, Nat.mul_zero]
      · have hgt : j < i := lt_of_le_of_ne hge (Ne.symm hne)
        have h1 : (j + 1) * m ≤ i * m := Nat.mul_le_mul_right m hgt
        have h2 : (i + 1) * m = i * m + m := Nat.succ_mul i m
        have h3 : min ((j + 1) * m) ((i + 1) * m) - max (j * m) (i * m) = 0 := by omega
        rw [h3, Nat.mul_zero]
    · intro h
      exact absurd (Finset.mem_range.mpr hj) h
  rw [hs]
  have h1 : 2 * (f j * m) + m = m * (2 * f j + 1) := by ring
  have h2 : 2 * m = m * 2 := by ring
  rw [h1, h2, Nat.mul_div_mul_left _ _ hm]
  omega

/-- Resampling a single source cell replicates its value. -/
theorem resize1D_single (n : Nat) (f : Nat → Nat) (j : Nat) (hj : j < n) :
    resize1D 1 n f j = f 0 := by
  unfold resize1D
  rw [Finset.sum_range_one]
  have h : min ((j + 1) * 1) ((0 + 1) * n) - max (j * 1) (0 * n) = 1 := by omega
  rw [h, Nat.mul_one]
  omega

/-- The value of resampling the identity 0..255 ramp down to one cell:
the symmetric average of 0..255 rounded half up, 128. -/
theorem resize1D_gradient : resize1D 256 1 (fun i => i) 0 = 128 := by
  unfold resize1D
  have hcong : ∀ i ∈ Finset.range 256,
      i * (min ((0 + 1) * 256) ((i + 1) * 1) - max (0 * 256) (i * 1)) = i := by
    intro i hi
    have h : i < 256 := Finset.mem_range.mp hi
    have h2 : min ((0 + 1) * 256) ((i + 1) * 1) - max (0 * 256) (i * 1) = 1 := by omega
    rw [h2, Nat.mul_one]
  rw [Finset.sum_congr rfl hcong]
  have hs := Finset.sum_range_id_mul_two 256
  omega

/-- Resampling respects pointwise equality on the source cells. -/
theorem resize1D_congr (m n j : Nat) (f g : Nat → Nat) (hfg : ∀ i < m, f i = g i) :
    resize1D m n f j = resize1D m n g j := by
  unfold resize1D
  have hsum : ∑ i in Finset.range m,
        f i * (min ((j + 1) * m) ((i + 1) * n) - max (j * m) (i * n))
      = ∑ i in Finset.range m,
        g i * (min ((j + 1) * m) ((i + 1) * n) - max (j * m) (i * n)) :=
    Finset.sum_congr rfl fun i hi => by rw [hfg i (Finset.mem_range.mp hi)]
  rw [hsum]

/-- Every pixel of the ramp the source builds with horizontal=true is
128: the resize (width, 1) step of _alpha_ramp collapses the
top-to-bottom gradient by averaging the whole 0..255 column, so the
result is constant instead of ramping left to right. -/
theorem rampH (w h x y : Nat) (hx : x < w) (hy : y < h) :
    (alphaRamp w h true).px x y = 128 := by
  have hw : 0 < w := lt_of_le_of_lt (Nat.zero_le x) hx
  show resize1D 1 h (fun i => (((linearGradient.resizeH w).resizeV 1).resizeH w).px x i) y = 128
  rw [resize1D_single h _ y hy]
  show resize1D w w (fun i => ((linearGradient.resizeH w).resizeV 1).px i 0) x = 128
  rw [resize1D_id w _ x hx]
  show resize1D 256 1 (fun i => (linearGradient.resizeH w).px x i) 0 = 128
  have hfg : ∀ i < 256, (linearGradient.resizeH w).px x i = i := by
    intro i _
    show resize1D 256 w (fun _ => i) x = i
    exact resize1D_const 256 w i x (by norm_num) hx
  rw [resize1D_congr 256 1 0 (fun i => (linearGradient.resizeH w).px x i) (fun i => i) hfg]
  exact resize1D_gradient

/- ------------------------------------------------------------------ -/
/- Size bookkeeping.                                                   -/
/- ------------------------------------------------------------------ -/

@[simp] theorem new_w (w h c : Nat) : (Img.new w h c).w = w := rfl

@[simp] theorem new_h (w h c : Nat) : (Img.new w h c).h = h := rfl

@[simp] theorem new_px (w h c x y : Nat) : (Img.new w h c).px x y = c := rfl

@[simp] theorem paste_w (d s : Img) (a b : Int) : (d.paste s a b).w = d.w := rfl

@[simp] theorem paste_h (d s : Img) (a b : Int) : (d.paste s a b).h = d.h := rfl

@[simp] theorem pasteMaskImg_w (d s : Img) (a b : Int) (m : Img) :
    (pasteMaskImg d s a b m).w = d.w := rfl

@[simp] theorem pasteMaskImg_h (d s : Img) (a b : Int) (m : Img) :
    (pasteMaskImg d s a b m).h = d.h := rfl

@[simp] theorem crop_w (img : Img) (l t r b : Int) :
    (img.crop l t r b).w = (r - l).toNat := rfl

@[simp] theorem crop_h (img : Img) (l t r b : Int) :
    (img.crop l t r b).h = (b - t).toNat := rfl

@[simp] theorem invert_w (img : Img) : (img.invert).w = img.w := rfl

@[simp] theorem invert_h (img : Img) : (img.invert).h = img.h := rfl

@[simp] theorem flipLR_w (img : Img) : (img.flipLR).w = img.w := rfl

@[simp] theorem flipLR_h (img : Img) : (img.flipLR).h = img.h := rfl

@[simp] theorem flipTB_w (img : Img) : (img.flipTB).w = img.w := rfl

@[simp] theorem flipTB_h (img : Img) : (img.flipTB).h = img.h := rfl

@[simp] theorem alphaRamp_w (w h : Nat) (hor : Bool) : (alphaRamp w h hor).w = w := by
  cases hor <;> rfl

@[simp] theorem alphaRamp_h (w h : Nat) (hor : Bool) : (alphaRamp w h hor).h = h := by
  cases hor <;> rfl

/-- A fold of pastes over any index list keeps the canvas width. -/
theorem foldl_paste_w (e : Img) (off1 off2 : Nat → Int) :
    ∀ (l : List Nat) (init : Img),
      (l.foldl (fun (img : Img) (x : Nat) => img.paste e (off1 x) (off2 x)) init).w = init.w := by
  intro l
  induction l with
  | nil => intro init; rfl
  | cons a l ih => intro init; rw [List.foldl_cons, ih]; rfl

/-- A fold of pastes over any index list keeps the canvas height. -/
theorem foldl_paste_h (e : Img) (off1 off2 : Nat → Int) :
    ∀ (l : List Nat) (init : Img),
      (l.foldl (fun (img : Img) (x : Nat) => img.paste e (off1 x) (off2 x)) init).h = init.h := by
  intro l
  induction l with
  | nil => intro init; rfl
  | cons a l ih => intro init; rw [List.foldl_cons, ih]; rfl

/-- The horizontal fallback always returns a 1792x1024 canvas. -/
theorem extendHorizFallback_size (b : Img) :
    (extendHorizFallback b).w = 1792 ∧ (extendHorizFallback b).h = 1024 := by
  unfold extendHorizFallback
  dsimp only
  constructor
  · rw [foldl_paste_w, foldl_paste_w]
    rfl
  · rw [foldl_paste_h, foldl_paste_h]
    rfl

/-- The vertical fallback always returns a 1024x1792 canvas. -/
theorem extendVertFallback_size (b : Img) :
    (extendVertFallback b).w = 1024 ∧ (extendVertFallback b).h = 1792 := by
  unfold extendVertFallback
  dsimp only
  constructor
  · rw [foldl_paste_w, foldl_paste_w]
    rfl
  · rw [foldl_paste_h, foldl_paste_h]
    rfl

/-- A successful landscape try block returns a 1792x1024 image. -/
theorem outpaintLandscapeTry_ok_size (σ : Provider) (b : Img) (p : List Char) (img : Img)
    (h : outpaintLandscapeTry σ b p = .ok img) : img.w = 1792 ∧ img.h = 1024 := by
  unfold outpaintLandscapeTry at h
  split at h
  · split at h
    · exact absurd h (by simp)
    · split at h
      · exact absurd h (by simp)
      · cases h
        exact ⟨rfl, rfl⟩
  · exact absurd h (by simp)

/-- A successful portrait try block returns a 1024x1792 image. -/
theorem outpaintVerticalTry_ok_size (σ : Provider) (b : Img) (p : List Char) (img : Img)
    (h : outpaintVerticalTry σ b p = .ok img) : img.w = 1024 ∧ img.h = 1792 := by
  unfold outpaintVerticalTry at h
  split at h
  · split at h
    · exact absurd h (by simp)
    · split at h
      · exact absurd h (by simp)
      · cases h
        exact ⟨rfl, rfl⟩
  · exact absurd h (by simp)

/-- The landscape pipeline always returns a 1792x1024 image, on every
branch. -/
theorem outpaintLandscape_size (dev : Bool) (σ : Provider) (b : Img) (p : List Char) :
    (outpaintLandscape dev σ b p).w = 1792 ∧ (outpaintLandscape dev σ b p).h = 1024 := by
  unfold outpaintLandscape
  split
  · exact extendHorizFallback_size b
  · split
    · next img heq => exact outpaintLandscapeTry_ok_size σ b p img heq
    · exact extendHorizFallback_size b

/-- The portrait pipeline always returns a 1024x1792 image, on every
branch. -/
theorem outpaintVertical_size (dev : Bool) (σ : Provider) (b : Img) (p : List Char) :
    (outpaintVertical dev σ b p).w = 1024 ∧ (outpaintVertical dev σ b p).h = 1792 := by
  unfold outpaintVertical
  split
  · exact extendVertFallback_size b
  · split
    · next img heq => exact outpaintVerticalTry_ok_size σ b p img heq
    · exact extendVertFallback_size b

/- ------------------------------------------------------------------ -/
/- Pixel access lemmas.                                                -/
/- ------------------------------------------------------------------ -/

/-- Pixel of a paste inside the pasted rectangle. -/
theorem paste_px_in (d s : Img) (a b : Int) (x y : Nat)
    (h1 : a ≤ (x : Int)) (h2 : (x : Int) < a + s.w)
    (h3 : b ≤ (y : Int)) (h4 : (y : Int) < b + s.h) :
    (d.paste s a b).px x y = s.px ((x : Int) - a).toNat ((y : Int) - b).toNat := by
  unfold Img.paste
  exact if_pos ⟨h1, h2, h3, h4⟩

/-- Pixel of a paste outside the pasted rectangle. -/
theorem paste_px_out (d s : Img) (a b : Int) (x y : Nat)
    (h : ¬(a ≤ (x : Int) ∧ (x : Int) < a + s.w ∧ b ≤ (y : Int) ∧ (y : Int) < b + s.h)) :
    (d.paste s a b).px x y = d.px x y := by
  unfold Img.paste
  exact if_neg h

/-- Pixel of the blended image of a masked paste inside the pasted
rectangle. -/
theorem pasteMaskImg_px_in (d s : Img) (a b : Int) (m : Img) (x y : Nat)
    (h1 : a ≤ (x : Int)) (h2 : (x : Int) < a + s.w)
    (h3 : b ≤ (y : Int)) (h4 : (y : Int) < b + s.h) :
    (pasteMaskImg d s a b m).px x y
      = blendPx (m.px ((x : Int) - a).toNat ((y : Int) - b).toNat)
          (d.px x y) (s.px ((x : Int) - a).toNat ((y : Int) - b).toNat) := by
  unfold pasteMaskImg
  exact if_pos ⟨h1, h2, h3, h4⟩

/-- Pixel of a crop whose source position is in bounds. -/
theorem crop_px_in (img : Img) (l t r b : Int) (x y : Nat)
    (h0 : 0 ≤ l + (x : Int)) (h1 : l + (x : Int) < img.w)
    (h2 : 0 ≤ t + (y : Int)) (h3 : t + (y : Int) < img.h) :
    (img.crop l t r b).px x y = img.px (l + (x : Int)).toNat (t + (y : Int)).toNat := by
  unfold Img.crop
  exact if_pos ⟨h0, h1, h2, h3⟩

/-- Pixel of a paste at offset zero. -/
theorem paste_px_zero (d s : Img) (x y : Nat) (h2 : x < s.w) (h4 : y < s.h) :
    (d.paste s 0 0).px x y = s.px x y := by
  rw [paste_px_in d s 0 0 x y (by omega) (by omega) (by omega) (by omega)]
  simp

/-- Pixel of the blended image of a masked paste at offset zero. -/
theorem pasteMaskImg_px_zero (d s m : Img) (x y : Nat) (h2 : x < s.w) (h4 : y < s.h) :
    (pasteMaskImg d s 0 0 m).px x y = blendPx (m.px x y) (d.px x y) (s.px x y) := by
  rw [pasteMaskImg_px_in d s 0 0 m x y (by omega) (by omega) (by omega) (by omega)]
  simp

@[simp] theorem seamBandRightImg_w (b s : Img) (o : Nat) :
    (seamBandRightImg b s o).w = o := rfl

@[simp] theorem seamBandRightImg_h (b s : Img) (o : Nat) :
    (seamBandRightImg b s o).h = b.h := rfl

@[simp] theorem seamBandLeftImg_w (b s : Img) (o : Nat) :
    (seamBandLeftImg b s o).w = o := rfl

@[simp] theorem seamBandLeftImg_h (b s : Img) (o : Nat) :
    (seamBandLeftImg b s o).h = b.h := rfl

@[simp] theorem seamBandDownImg_w (b s : Img) (o : Nat) :
    (seamBandDownImg b s o).w = b.w := rfl

@[simp] theorem seamBandDownImg_h (b s : Img) (o : Nat) :
    (seamBandDownImg b s o).h = o := rfl

@[simp] theorem seamBandUpImg_w (b s : Img) (o : Nat) :
    (seamBandUpImg b s o).w = b.w := rfl

@[simp] theorem seamBandUpImg_h (b s : Img) (o : Nat) :
    (seamBandUpImg b s o).h = o := rfl

/-- The right seam pastes raise the PIL mask-size error exactly when
the overlap exceeds the base width (old band paste) or the strip height
differs from the base height (new band paste). -/
theorem seamBandRight_none_iff (b s : Img) (o : Nat) :
    seamBandRight b s o = none ↔ (b.w < o ∨ s.h ≠ b.h) := by
  unfold seamBandRight Img.pasteMask
  dsimp only
  simp only [invert_w, invert_h, crop_w, crop_h, alphaRamp_w, alphaRamp_h, new_w, new_h,
    pasteMaskImg_w, pasteMaskImg_h]
  split
  · next h1 =>
    dsimp only [Option.bind]
    split
    · next h2 => exact iff_of_false (by simp) (by omega)
    · next h2 => exact iff_of_true rfl (by omega)
  · next h1 => exact iff_of_true rfl (by omega)

/-- The left seam pastes raise the PIL mask-size error exactly when the
strip height differs from the base height. -/
theorem seamBandLeft_none_iff (b s : Img) (o : Nat) :
    seamBandLeft b s o = none ↔ s.h ≠ b.h := by
  unfold seamBandLeft Img.pasteMask
  dsimp only
  simp only [invert_w, invert_h, crop_w, crop_h, alphaRamp_w, alphaRamp_h, new_w, new_h,
    flipLR_w, flipLR_h, pasteMaskImg_w, pasteMaskImg_h]
  split
  · next h1 =>
    dsimp only [Option.bind]
    split
    · next h2 => exact iff_of_false (by simp) (by omega)
    · next h2 => exact iff_of_true rfl (by omega)
  · next h1 => exact absurd (by omega) h1

/-- The down seam pastes raise the PIL mask-size error exactly when the
strip width differs from the base width or the overlap exceeds the base
height. -/
theorem seamBandDown_none_iff (b s : Img) (o : Nat) :
    seamBandDown b s o = none ↔ (s.w ≠ b.w ∨ b.h < o) := by
  unfold seamBandDown Img.pasteMask
  dsimp only
  simp only [invert_w, invert_h, crop_w, crop_h, alphaRamp_w, alphaRamp_h, new_w, new_h,
    pasteMaskImg_w, pasteMaskImg_h]
  split
  · next h1 =>
    dsimp only [Option.bind]
    split
    · next h2 => exact iff_of_false (by simp) (by omega)
    · next h2 => exact absurd (by omega) h2
  · next h1 => exact iff_of_true rfl (by omega)

/-- The up seam pastes raise the PIL mask-size error exactly when the
strip width differs from the base width. -/
theorem seamBandUp_none_iff (b s : Img) (o : Nat) :
    seamBandUp b s o = none ↔ s.w ≠ b.w := by
  unfold seamBandUp Img.pasteMask
  dsimp only
  simp only [invert_w, invert_h, crop_w, crop_h, alphaRamp_w, alphaRamp_h, new_w, new_h,
    flipTB_w, flipTB_h, pasteMaskImg_w, pasteMaskImg_h]
  split
  · next h1 =>
    dsimp only [Option.bind]
    split
    · next h2 => exact iff_of_false (by simp) (by omega)
    · next h2 => exact absurd (by omega) h2
  · next h1 => exact iff_of_true rfl (by omega)

/-- When the mask checks pass, the right seam pastes return the band
image. -/
theorem seamBandRight_some (b s : Img) (o : Nat) (h1 : o ≤ b.w) (h2 : s.h = b.h) :
    seamBandRight b s o = some (seamBandRightImg b s o) := by
  unfold seamBandRight Img.pasteMask seamBandRightImg
  dsimp only
  rw [if_pos (by simp only [invert_w, invert_h, crop_w, crop_h, alphaRamp_w, alphaRamp_h]; constructor <;> omega)]
  dsimp only [Option.bind]
  rw [if_pos (by simp only [crop_w, crop_h, alphaRamp_w, alphaRamp_h, pasteMaskImg_w, pasteMaskImg_h, new_w, new_h]; constructor <;> omega)]

/-- When the mask checks pass, the left seam pastes return the band
image. -/
theorem seamBandLeft_some (b s : Img) (o : Nat) (h2 : s.h = b.h) :
    seamBandLeft b s o = some (seamBandLeftImg b s o) := by
  unfold seamBandLeft Img.pasteMask seamBandLeftImg
  dsimp only
  rw [if_pos (by simp only [invert_w, invert_h, crop_w, crop_h, alphaRamp_w, alphaRamp_h, flipLR_w, flipLR_h]; constructor <;> omega)]
  dsimp only [Option.bind]
  rw [if_pos (by simp only [crop_w, crop_h, alphaRamp_w, alphaRamp_h, pasteMaskImg_w, pasteMaskImg_h, new_w, new_h, flipLR_w, flipLR_h]; constructor <;> omega)]

/-- When the mask checks pass, the down seam pastes return the band
image. -/
theorem seamBandDown_some (b s : Img) (o : Nat) (h1 : o ≤ b.h) (h2 : s.w = b.w) :
    seamBandDown b s o = some (seamBandDownImg b s o) := by
  unfold seamBandDown Img.pasteMask seamBandDownImg
  dsimp only
  rw [if_pos (by simp only [invert_w, invert_h, crop_w, crop_h, alphaRamp_w, alphaRamp_h]; constructor <;> omega)]
  dsimp only [Option.bind]
  rw [if_pos (by simp only [crop_w, crop_h, alphaRamp_w, alphaRamp_h, pasteMaskImg_w, pasteMaskImg_h, new_w, new_h]; constructor <;> omega)]

/-- When the mask checks pass, the up seam pastes return the band
image. -/
theorem seamBandUp_some (b s : Img) (o : Nat) (h2 : s.w = b.w) :
    seamBandUp b s o = some (seamBandUpImg b s o) := by
  unfold seamBandUp Img.pasteMask seamBandUpImg
  dsimp only
  rw [if_pos (by simp only [invert_w, invert_h, crop_w, crop_h, alphaRamp_w, alphaRamp_h, flipTB_w, flipTB_h]; constructor <;> omega)]
  dsimp only [Option.bind]
  rw [if_pos (by simp only [crop_w, crop_h, alphaRamp_w, alphaRamp_h, pasteMaskImg_w, pasteMaskImg_h, new_w, new_h, flipTB_w, flipTB_h]; constructor <;> omega)]

/- ------------------------------------------------------------------ -/
/- Error propagation helpers for the two pipelines.                    -/
/- ------------------------------------------------------------------ -/

/-- When the landscape try block errors, the pipeline returns exactly
the horizontal fallback output. -/
theorem landscape_error_fallback (σ : Provider) (b : Img) (p : List Char) (e : AiErr)
    (h : outpaintLandscapeTry σ b p = .error e) :
    outpaintLandscape false σ b p = extendHorizFallback b := by
  show (match outpaintLandscapeTry σ b p with
    | .ok img => img
    | .error _ => extendHorizFallback b) = extendHorizFallback b
  rw [h]

/-- When the portrait try block errors, the pipeline returns exactly the
vertical fallback output. -/
theorem vertical_error_fallback (σ : Provider) (b : Img) (p : List Char) (e : AiErr)
    (h : outpaintVerticalTry σ b p = .error e) :
    outpaintVertical false σ b p = extendVertFallback b := by
  show (match outpaintVerticalTry σ b p with
    | .ok img => img
    | .error _ => extendVertFallback b) = extendVertFallback b
  rw [h]

/-- A failing directional provider call makes the landscape try block
error with synthesisFailed. -/
theorem landscape_try_fails (σ : Provider) (b : Img) (p : List Char)
    (hw : b.w = 1024) (hh : b.h = 1024)
    (h : extendDirection σ b .right 384 p = none ∨ extendDirection σ b .left 384 p = none) :
    outpaintLandscapeTry σ b p = .error .synthesisFailed := by
  unfold outpaintLandscapeTry
  rw [if_pos ⟨hw, hh⟩]
  rcases h with h | h
  · rw [h]
  · cases hr : extendDirection σ b .right 384 p with
    | none => rfl
    | some r => rw [h]

/-- A failing directional provider call makes the portrait try block
error with synthesisFailed. -/
theorem vertical_try_fails (σ : Provider) (b : Img) (p : List Char)
    (hw : b.w = 1024) (hh : b.h = 1024)
    (h : extendDirection σ b .down 384 p = none ∨ extendDirection σ b .up 384 p = none) :
    outpaintVerticalTry σ b p = .error .synthesisFailed := by
  unfold outpaintVerticalTry
  rw [if_pos ⟨hw, hh⟩]
  rcases h with h | h
  · rw [h]
  · cases hd : extendDirection σ b .down 384 p with
    | none => rfl
    | some r => rw [h]

/- ------------------------------------------------------------------ -/
/- The claims.                                                         -/
/- ------------------------------------------------------------------ -/

/-- C2: for every 1024x1024 input the landscape pipeline returns an
image of exactly 1792x1024 and the portrait pipeline an image of
exactly 1024x1792, on the AI branch and on the fallback branch alike
(any dev-mode flag and any provider behaviour). -/
theorem c2_output_sizes (dev : Bool) (σ : Provider) (base : Img) (p : List Char)
    (hw : base.w = 1024) (hh : base.h = 1024) :
    (outpaintLandscape dev σ base p).w = 1792 ∧
    (outpaintLandscape dev σ base p).h = 1024 ∧
    (outpaintVertical dev σ base p).w = 1024 ∧
    (outpaintVertical dev σ base p).h = 1792 :=
  ⟨(outpaintLandscape_size dev σ base p).1, (outpaintLandscape_size dev σ base p).2,
    (outpaintVertical_size dev σ base p).1, (outpaintVertical_size dev σ base p).2⟩

/-- Witness for C2 at a concrete white base with a failing provider. -/
theorem c2_output_sizes_witness :
    (outpaintLandscape false failProvider whiteBase []).w = 1792 ∧
    (outpaintLandscape false failProvider whiteBase []).h = 1024 ∧
    (outpaintVertical false failProvider whiteBase []).w = 1024 ∧
    (outpaintVertical false failProvider whiteBase []).h = 1792 :=
  c2_output_sizes false failProvider whiteBase [] rfl rfl

/-- C3: if the synthesis provider call raises on either of the two
directional extensions, the pipelines do not propagate the error: the
portrait pipeline returns exactly the fallback-extender output, a
1024x1792 image, and the landscape pipeline the 1792x1024 fallback
output; since the whole result is the fallback image, it is never a mix
of AI-generated and fallback strips. -/
theorem c3_provider_failure_falls_back (σ : Provider) (base : Img) (p : List Char)
    (hw : base.w = 1024) (hh : base.h = 1024) :
    ((extendDirection σ base .down 384 p = none ∨ extendDirection σ base .up 384 p = none) →
      outpaintVertical false σ base p = extendVertFallback base ∧
      (outpaintVertical false σ base p).w = 1024 ∧
      (outpaintVertical false σ base p).h = 1792) ∧
    ((extendDirection σ base .right 384 p = none ∨ extendDirection σ base .left 384 p = none) →
      outpaintLandscape false σ base p = extendHorizFallback base ∧
      (outpaintLandscape false σ base p).w = 1792 ∧
      (outpaintLandscape false σ base p).h = 1024) := by
  constructor
  · intro hfail
    exact ⟨vertical_error_fallback σ base p _ (vertical_try_fails σ base p hw hh hfail),
      (outpaintVertical_size false σ base p).1, (outpaintVertical_size false σ base p).2⟩
  · intro hfail
    exact ⟨landscape_error_fallback σ base p _ (landscape_try_fails σ base p hw hh hfail),
      (outpaintLandscape_size false σ base p).1, (outpaintLandscape_size false σ base p).2⟩

/-- Witness for C3: the always-failing provider on the white base. -/
theorem c3_provider_failure_falls_back_witness :
    outpaintVertical false failProvider whiteBase [] = extendVertFallback whiteBase ∧
    (outpaintVertical false failProvider whiteBase []).w = 1024 ∧
    (outpaintVertical false failProvider whiteBase []).h = 1792 :=
  (c3_provider_failure_falls_back failProvider whiteBase [] rfl rfl).1 (Or.inl rfl)

/-- C5: the claim says the ramp with horizontal=true is 0 at the left
edge and 255 at the right edge of every row; in fact the resize
(width, 1) step collapses the top-to-bottom linear gradient by
averaging each whole 0..255 column, so the produced buffer is the
constant 128 everywhere, and in particular is neither 0 at the left
edge nor 255 at the right edge. -/
theorem c5_horizontal_ramp_constant :
    (alphaRamp 4 1 true).px 0 0 = 128 ∧ (alphaRamp 4 1 true).px 3 0 = 128 ∧
    ¬((alphaRamp 4 1 true).px 0 0 = 0 ∧ (alphaRamp 4 1 true).px 3 0 = 255) := by
  have h0 := rampH 4 1 0 0 (by omega) (by omega)
  have h3 := rampH 4 1 3 0 (by omega) (by omega)
  exact ⟨h0, h3, by omega⟩

/-- C6 (amended): when the decoded input is not exactly 1024x1024 and
dev mode is off, both try blocks raise the invalid-base-size error, but
the catch-all handler of each pipeline swallows it and the call returns
the fallback-extended image: the error is handled internally, not
surfaced to the caller. -/
theorem c6_size_error_handled_internally (σ : Provider) (base : Img) (p : List Char)
    (hbad : ¬(base.w = 1024 ∧ base.h = 1024)) :
    outpaintLandscapeTry σ base p = .error .invalidBaseSize ∧
    outpaintLandscape false σ base p = extendHorizFallback base ∧
    outpaintVerticalTry σ base p = .error .invalidBaseSize ∧
    outpaintVertical false σ base p = extendVertFallback base := by
  have hL : outpaintLandscapeTry σ base p = .error .invalidBaseSize := by
    unfold outpaintLandscapeTry
    exact if_neg hbad
  have hV : outpaintVerticalTry σ base p = .error .invalidBaseSize := by
    unfold outpaintVerticalTry
    exact if_neg hbad
  exact ⟨hL, landscape_error_fallback σ base p _ hL, hV,
    vertical_error_fallback σ base p _ hV⟩

/-- Witness for the amended C6 at a concrete 2x2 base. -/
theorem c6_size_error_handled_internally_witness :
    outpaintLandscapeTry echoProvider (Img.new 2 2 255) [] = .error .invalidBaseSize ∧
    outpaintLandscape false echoProvider (Img.new 2 2 255) []
      = extendHorizFallback (Img.new 2 2 255) ∧
    outpaintVerticalTry echoProvider (Img.new 2 2 255) [] = .error .invalidBaseSize ∧
    outpaintVertical false echoProvider (Img.new 2 2 255) []
      = extendVertFallback (Img.new 2 2 255) :=
  c6_size_error_handled_internally echoProvider (Img.new 2 2 255) [] (by decide)

/-- C6 counterexample: on a 2x2 input the landscape call does not fail:
it returns a normal 1792x1024 image, namely the fallback extension of
the wrong-sized input, so the invalid-base-size error is not surfaced
to the caller. -/
theorem c6_counterexample :
    outpaintLandscape false echoProvider (Img.new 2 2 255) []
      = extendHorizFallback (Img.new 2 2 255) ∧
    (outpaintLandscape false echoProvider (Img.new 2 2 255) []).w = 1792 ∧
    (outpaintLandscape false echoProvider (Img.new 2 2 255) []).h = 1024 := by
  have hL : outpaintLandscapeTry echoProvider (Img.new 2 2 255) [] = .error .invalidBaseSize := by
    unfold outpaintLandscapeTry
    exact if_neg (by decide)
  exact ⟨landscape_error_fallback _ _ _ _ hL,
    (outpaintLandscape_size false echoProvider (Img.new 2 2 255) []).1,
    (outpaintLandscape_size false echoProvider (Img.new 2 2 255) []).2⟩

/-- The asserted dimension-mismatch failure of the strip blender occurs
exactly when both axes differ, for every direction. -/
theorem blend_dm_iff (base strip : Img) (o : Nat) (d : Dir) :
    blendStrip base strip o d = .error .dimensionMismatch
      ↔ ¬(base.h = strip.h ∨ base.w = strip.w) := by
  constructor
  · intro h hcond
    unfold blendStrip at h
    rw [if_pos hcond] at h
    cases d <;> dsimp only at h <;> split at h <;>
      first
        | simp at h
        | (split at h <;> simp at h)
  · intro hcond
    unfold blendStrip
    exact if_neg hcond

/-- The mask-size failure of the right blend occurs exactly when the
assert passes but the overlap exceeds the base width or the heights
differ. -/
theorem blend_im_iff_right (base strip : Img) (o : Nat) :
    blendStrip base strip o .right = .error .imageMismatch
      ↔ ((base.h = strip.h ∨ base.w = strip.w) ∧ (base.w < o ∨ strip.h ≠ base.h)) := by
  by_cases hcond : base.h = strip.h ∨ base.w = strip.w
  · constructor
    · intro h
      unfold blendStrip at h
      rw [if_pos hcond] at h
      dsimp only at h
      cases hsb : seamBandRight base strip o with
      | none => exact ⟨hcond, (seamBandRight_none_iff base strip o).mp hsb⟩
      | some tmp =>
        rw [hsb] at h
        dsimp only at h
        split at h <;> simp at h
    · rintro ⟨-, hfail⟩
      unfold blendStrip
      rw [if_pos hcond]
      dsimp only
      rw [(seamBandRight_none_iff base strip o).mpr hfail]
  · constructor
    · intro h
      unfold blendStrip at h
      rw [if_neg hcond] at h
      simp at h
    · rintro ⟨hc, -⟩
      exact absurd hc hcond

/-- The mask-size failure of the left blend occurs exactly when the
assert passes but the heights differ. -/
theorem blend_im_iff_left (base strip : Img) (o : Nat) :
    blendStrip base strip o .left = .error .imageMismatch
      ↔ ((base.h = strip.h ∨ base.w = strip.w) ∧ strip.h ≠ base.h) := by
  by_cases hcond : base.h = strip.h ∨ base.w = strip.w
  · constructor
    · intro h
      unfold blendStrip at h
      rw [if_pos hcond] at h
      dsimp only at h
      cases hsb : seamBandLeft base strip o with
      | none => exact ⟨hcond, (seamBandLeft_none_iff base strip o).mp hsb⟩
      | some tmp =>
        rw [hsb] at h
        dsimp only at h
        split at h <;> simp at h
    · rintro ⟨-, hfail⟩
      unfold blendStrip
      rw [if_pos hcond]
      dsimp only
      rw [(seamBandLeft_none_iff base strip o).mpr hfail]
  · constructor
    · intro h
      unfold blendStrip at h
      rw [if_neg hcond] at h
      simp at h
    · rintro ⟨hc, -⟩
      exact absurd hc hcond

/-- The mask-size failure of the down blend occurs exactly when the
assert passes but the widths differ or the overlap exceeds the base
height. -/
theorem blend_im_iff_down (base strip : Img) (o : Nat) :
    blendStrip base strip o .down = .error .imageMismatch
      ↔ ((base.h = strip.h ∨ base.w = strip.w) ∧ (strip.w ≠ base.w ∨ base.h < o)) := by
  by_cases hcond : base.h = strip.h ∨ base.w = strip.w
  · constructor
    · intro h
      unfold blendStrip at h
      rw [if_pos hcond] at h
      dsimp only at h
      cases hsb : seamBandDown base strip o with
      | none => exact ⟨hcond, (seamBandDown_none_iff base strip o).mp hsb⟩
      | some tmp =>
        rw [hsb] at h
        dsimp only at h
        split at h <;> simp at h
    · rintro ⟨-, hfail⟩
      unfold blendStrip
      rw [if_pos hcond]
      dsimp only
      rw [(seamBandDown_none_iff base strip o).mpr hfail]
  · constructor
    · intro h
      unfold blendStrip at h
      rw [if_neg hcond] at h
      simp at h
    · rintro ⟨hc, -⟩
      exact absurd hc hcond

/-- The mask-size failure of the up blend occurs exactly when the
assert passes but the widths differ. -/
theorem blend_im_iff_up (base strip : Img) (o : Nat) :
    blendStrip base strip o .up = .error .imageMismatch
      ↔ ((base.h = strip.h ∨ base.w = strip.w) ∧ strip.w ≠ base.w) := by
  by_cases hcond : base.h = strip.h ∨ base.w = strip.w
  · constructor
    · intro h
      unfold blendStrip at h
      rw [if_pos hcond] at h
      dsimp only at h
      cases hsb : seamBandUp base strip o with
      | none => exact ⟨hcond, (seamBandUp_none_iff base strip o).mp hsb⟩
      | some tmp =>
        rw [hsb] at h
        dsimp only at h
        split at h <;> simp at h
    · rintro ⟨-, hfail⟩
      unfold blendStrip
      rw [if_pos hcond]
      dsimp only
      rw [(seamBandUp_none_iff base strip o).mpr hfail]
  · constructor
    · intro h
      unfold blendStrip at h
      rw [if_neg hcond] at h
      simp at h
    · rintro ⟨hc, -⟩
      exact absurd hc hcond

/-- C7 (amended): the strip blender raises the asserted
DimensionMismatch exactly when BOTH axes of base and new_strip differ:
the assert accepts alignment on either axis regardless of direction.
When the assert passes, the masked seam pastes raise the PIL mask-size
ValueError (images do not match) exactly when the strip height differs
from the base height (left and right, plus overlap exceeding the base
width for right) or the strip width differs from the base width (up and
down, plus overlap exceeding the base height for down).  So the call
does fail when the non-extension axis differs, but through the paste
error rather than the asserted DimensionMismatch unless both axes
differ. -/
theorem c7_failure_characterization (base strip : Img) (o : Nat) :
    (∀ d : Dir, blendStrip base strip o d = .error .dimensionMismatch
      ↔ ¬(base.h = strip.h ∨ base.w = strip.w)) ∧
    (blendStrip base strip o .right = .error .imageMismatch
      ↔ ((base.h = strip.h ∨ base.w = strip.w) ∧ (base.w < o ∨ strip.h ≠ base.h))) ∧
    (blendStrip base strip o .left = .error .imageMismatch
      ↔ ((base.h = strip.h ∨ base.w = strip.w) ∧ strip.h ≠ base.h)) ∧
    (blendStrip base strip o .down = .error .imageMismatch
      ↔ ((base.h = strip.h ∨ base.w = strip.w) ∧ (strip.w ≠ base.w ∨ base.h < o))) ∧
    (blendStrip base strip o .up = .error .imageMismatch
      ↔ ((base.h = strip.h ∨ base.w = strip.w) ∧ strip.w ≠ base.w)) :=
  ⟨fun d => blend_dm_iff base strip o d,
    blend_im_iff_right base strip o, blend_im_iff_left base strip o,
    blend_im_iff_down base strip o, blend_im_iff_up base strip o⟩

/-- C7 counterexample: for direction right the claim says the call
fails with DimensionMismatch exactly when the heights differ.  With a
4x4 base and a 4x2 strip the heights differ, and the call does fail,
but with the mask-size error of the second seam paste, not with the
asserted DimensionMismatch.  And with a 2x4 base, a 4x4 strip and
overlap 3 the heights agree, so the claim says the call succeeds, yet
it fails with the mask-size error of the first seam paste because the
overlap exceeds the base width. -/
theorem c7_counterexample :
    (Img.new 4 4 255).h ≠ (Img.new 4 2 255).h ∧
    blendStrip (Img.new 4 4 255) (Img.new 4 2 255) 1 Dir.right = .error .imageMismatch ∧
    blendStrip (Img.new 4 4 255) (Img.new 4 2 255) 1 Dir.right ≠ .error .dimensionMismatch ∧
    (Img.new 2 4 255).h = (Img.new 4 4 255).h ∧
    blendStrip (Img.new 2 4 255) (Img.new 4 4 255) 3 Dir.right = .error .imageMismatch := by
  refine ⟨by decide, rfl, ?_, rfl, rfl⟩
  intro h
  rw [show blendStrip (Img.new 4 4 255) (Img.new 4 2 255) 1 Dir.right
    = Except.error AiErr.imageMismatch from rfl] at h
  simp at h

/-- C8: both pipelines consult the provider only at the slid canvas and
mask built from the original base image: the second directional call
receives arguments depending only on the base, never on the first
synthesized strip.  Concretely, each directional extension queries the
provider exactly at the base-derived slide of its direction, and two
providers that agree on those base-derived queries yield identical
pipeline outputs even if they differ everywhere else. -/
theorem c8_directions_independent (σ σ2 : Provider) (base : Img) (p : List Char)
    (hR : σ (slideCanvas base .right 384) (slideMask base .right 384) (truncatePrompt p)
        = σ2 (slideCanvas base .right 384) (slideMask base .right 384) (truncatePrompt p))
    (hL : σ (slideCanvas base .left 384) (slideMask base .left 384) (truncatePrompt p)
        = σ2 (slideCanvas base .left 384) (slideMask base .left 384) (truncatePrompt p))
    (hD : σ (slideCanvas base .down 384) (slideMask base .down 384) (truncatePrompt p)
        = σ2 (slideCanvas base .down 384) (slideMask base .down 384) (truncatePrompt p))
    (hU : σ (slideCanvas base .up 384) (slideMask base .up 384) (truncatePrompt p)
        = σ2 (slideCanvas base .up 384) (slideMask base .up 384) (truncatePrompt p)) :
    (∀ d : Dir, extendDirection σ base d 384 p
      = (σ (slideCanvas base d 384) (slideMask base d 384) (truncatePrompt p)).map
          (extractStrip d 384)) ∧
    outpaintLandscape false σ base p = outpaintLandscape false σ2 base p ∧
    outpaintVertical false σ base p = outpaintVertical false σ2 base p := by
  refine ⟨fun d => rfl, ?_, ?_⟩
  · unfold outpaintLandscape outpaintLandscapeTry extendDirection callImagesEdit
    rw [hR, hL]
  · unfold outpaintVertical outpaintVerticalTry extendDirection callImagesEdit
    rw [hD, hU]

/-- Witness for C8 with the echo provider on the white base. -/
theorem c8_directions_independent_witness :
    (∀ d : Dir, extendDirection echoProvider whiteBase d 384 []
      = (echoProvider (slideCanvas whiteBase d 384) (slideMask whiteBase d 384)
          (truncatePrompt [])).map (extractStrip d 384)) ∧
    outpaintLandscape false echoProvider whiteBase []
      = outpaintLandscape false echoProvider whiteBase [] ∧
    outpaintVertical false echoProvider whiteBase []
      = outpaintVertical false echoProvider whiteBase [] :=
  c8_directions_independent echoProvider echoProvider whiteBase [] rfl rfl rfl rfl

/-- C9: the prompt submitted to the edit endpoint equals the original
prompt when it has at most 1000 characters, and otherwise equals its
first 997 characters followed by the three-dot ellipsis; either way the
submitted prompt is never longer than 1000 characters. -/
theorem c9_prompt_truncation (p : List Char) :
    (p.length ≤ 1000 → truncatePrompt p = p) ∧
    (1000 < p.length → truncatePrompt p = p.take 997 ++ ['.', '.', '.']) ∧
    (truncatePrompt p).length ≤ 1000 := by
  unfold truncatePrompt
  refine ⟨?_, ?_, ?_⟩
  · intro h
    rw [if_neg (by omega)]
  · intro h
    rw [if_pos h]
  · split
    · next h =>
      rw [List.length_append, List.length_take]
      have h3 : (['.', '.', '.'] : List Char).length = 3 := rfl
      omega
    · next h => omega

/-- Witness for C9 at a 1001-character prompt. -/
theorem c9_prompt_truncation_witness :
    truncatePrompt (List.replicate 1001 'a')
      = (List.replicate 1001 'a').take 997 ++ ['.', '.', '.'] :=
  (c9_prompt_truncation (List.replicate 1001 'a')).2.1
    (by rw [List.length_replicate]; omega)

/-- Pixel of a left-right flip. -/
theorem flipLR_px (img : Img) (x y : Nat) :
    (img.flipLR).px x y = img.px (img.w - 1 - x) y := rfl

/-- The left-right flip of the horizontal ramp is still the constant
128 at the seam position used by the left blend of the C4 input. -/
theorem flipRamp22_val : ((alphaRamp 2 2 true).flipLR).px 0 0 = 128 := by
  rw [flipLR_px]
  have hw : (alphaRamp 2 2 true).w = 2 := rfl
  rw [hw, show (2 : Nat) - 1 - 0 = 1 from rfl]
  exact rampH 2 2 1 0 (by omega) (by omega)

/-- C4: evaluation of the blend at the failing input.  Base and strip
are solid white (255 in every channel), so the claim requires every
blended band value to lie in the range bounded by 255 and 255.  The
code pastes the old and the new band onto a fully transparent canvas
with the ramp masks, computing old*(255-w)*(255-w)/255/255 + new*w/255
instead of old*(1-w)+new*w, and the returned band pixel is 191, far
below both inputs. -/
theorem c4_blend_band_out_of_range :
    (Img.new 4 2 255).px 0 0 = 255 ∧ (Img.new 2 2 255).px 0 0 = 255 ∧
    (blendStrip (Img.new 4 2 255) (Img.new 2 2 255) 2 Dir.left).map (fun o => o.px 0 0)
      = .ok 191 := by
  refine ⟨rfl, rfl, ?_⟩
  have hb : blendStrip (Img.new 4 2 255) (Img.new 2 2 255) 2 Dir.left
      = .ok ((Img.new 4 2 255).paste
          (seamBandLeftImg (Img.new 4 2 255) (Img.new 2 2 255) 2) 0 0) := by
    unfold blendStrip
    dsimp only
    rw [if_pos (show (Img.new 4 2 255).h = (Img.new 2 2 255).h ∨
        (Img.new 4 2 255).w = (Img.new 2 2 255).w from Or.inl rfl),
      seamBandLeft_some (Img.new 4 2 255) (Img.new 2 2 255) 2 rfl]
    rfl
  rw [hb]
  show Except.ok (((Img.new 4 2 255).paste
      (seamBandLeftImg (Img.new 4 2 255) (Img.new 2 2 255) 2) 0 0).px 0 0) = Except.ok 191
  have hpx : ((Img.new 4 2 255).paste
      (seamBandLeftImg (Img.new 4 2 255) (Img.new 2 2 255) 2) 0 0).px 0 0 = 191 := by
    rw [paste_px_zero _ _ 0 0 (by decide) (by decide)]
    unfold seamBandLeftImg
    rw [pasteMaskImg_px_zero _ _ _ 0 0 (by decide) (by decide),
      pasteMaskImg_px_zero _ _ _ 0 0 (by decide) (by decide)]
    simp only [new_w, new_h, new_px]
    have hinv : (((alphaRamp 2 2 true).flipLR).invert).px 0 0 = 127 := by
      show 255 - ((alphaRamp 2 2 true).flipLR).px 0 0 = 127
      rw [flipRamp22_val]
    rw [flipRamp22_val, hinv]
    decide
  rw [hpx]

/-- C10: in _blend_strip, on inputs where the call returns (the seam
pastes raise no mask-size error), for directions right and down,
whenever the extension-axis length of new_strip exceeds overlap_px, the
returned image carries the original base pixels unchanged over the
overlap band (the freshly blended band is discarded when the enlarged
canvas is reallocated from base), whereas for directions left and up
the blended seam band is retained in the returned image at the seam
position. -/
theorem c10_band_discarded_or_retained (base strip : Img) (o : Nat) :
    (∀ x y : Nat, o < strip.w → strip.h = base.h → o ≤ base.w →
      base.w - o ≤ x → x < base.w → y < base.h →
      (blendStrip base strip o .right).map (fun out => out.px x y) = .ok (base.px x y)) ∧
    (∀ x y : Nat, o < strip.h → strip.w = base.w → o ≤ base.h →
      base.h - o ≤ y → y < base.h → x < base.w →
      (blendStrip base strip o .down).map (fun out => out.px x y) = .ok (base.px x y)) ∧
    (∀ x y : Nat, o < strip.w → strip.h = base.h →
      x < o → x < base.w → y < base.h →
      (blendStrip base strip o .left).map (fun out => out.px (strip.w - o + x) y)
        = .ok ((seamBandLeftImg base strip o).px x y)) ∧
    (∀ x y : Nat, o < strip.h → strip.w = base.w →
      y < o → y < base.h → x < base.w →
      (blendStrip base strip o .up).map (fun out => out.px x (strip.h - o + y))
        = .ok ((seamBandUpImg base strip o).px x y)) := by
  refine ⟨?_, ?_, ?_, ?_⟩
  · intro x y ho hsh hob hx1 hx2 hy
    have hb : blendStrip base strip o .right
        = .ok (((Img.new (base.w + (strip.w - o)) base.h 0).paste
            (base.crop 0 0 base.w base.h) 0 0).paste
            (strip.crop o 0 strip.w strip.h) (base.w : Int) 0) := by
      unfold blendStrip
      dsimp only
      rw [if_pos (Or.inl hsh.symm), seamBandRight_some base strip o hob hsh]
      dsimp only
      rw [if_pos ho]
    rw [hb]
    show Except.ok ((((Img.new (base.w + (strip.w - o)) base.h 0).paste
      (base.crop 0 0 base.w base.h) 0 0).paste
      (strip.crop o 0 strip.w strip.h) (base.w : Int) 0).px x y) = _
    congr 1
    rw [paste_px_out _ _ _ _ _ _ (by simp only [crop_w, crop_h]; omega)]
    rw [paste_px_in _ _ 0 0 _ _ (by omega) (by simp only [crop_w]; omega)
      (by omega) (by simp only [crop_h]; omega)]
    simp only [Int.sub_zero, Int.toNat_natCast]
    rw [crop_px_in base 0 0 base.w base.h x y (by omega) (by omega) (by omega) (by omega)]
    simp
  · intro x y ho hsw hob hy1 hy2 hx
    have hb : blendStrip base strip o .down
        = .ok (((Img.new base.w (base.h + (strip.h - o)) 0).paste
            (base.crop 0 0 base.w base.h) 0 0).paste
            (strip.crop 0 o strip.w strip.h) 0 (base.h : Int)) := by
      unfold blendStrip
      dsimp only
      rw [if_pos (Or.inr hsw.symm), seamBandDown_some base strip o hob hsw]
      dsimp only
      rw [if_pos ho]
    rw [hb]
    show Except.ok ((((Img.new base.w (base.h + (strip.h - o)) 0).paste
      (base.crop 0 0 base.w base.h) 0 0).paste
      (strip.crop 0 o strip.w strip.h) 0 (base.h : Int)).px x y) = _
    congr 1
    rw [paste_px_out _ _ _ _ _ _ (by simp only [crop_w, crop_h]; omega)]
    rw [paste_px_in _ _ 0 0 _ _ (by omega) (by simp only [crop_w]; omega)
      (by omega) (by simp only [crop_h]; omega)]
    simp only [Int.sub_zero, Int.toNat_natCast]
    rw [crop_px_in base 0 0 base.w base.h x y (by omega) (by omega) (by omega) (by omega)]
    simp
  · intro x y ho hsh hx hxb hy
    have hb : blendStrip base strip o .left
        = .ok (((Img.new (base.w + (strip.w - o)) base.h 0).paste
            (strip.crop 0 0 ((strip.w : Int) - o) strip.h) 0 0).paste
            (base.paste (seamBandLeftImg base strip o) 0 0) ((strip.w : Int) - o) 0) := by
      unfold blendStrip
      dsimp only
      rw [if_pos (Or.inl hsh.symm), seamBandLeft_some base strip o hsh]
      dsimp only
      rw [if_pos ho]
    rw [hb]
    show Except.ok ((((Img.new (base.w + (strip.w - o)) base.h 0).paste
      (strip.crop 0 0 ((strip.w : Int) - o) strip.h) 0 0).paste
      (base.paste (seamBandLeftImg base strip o) 0 0)
      ((strip.w : Int) - o) 0).px (strip.w - o + x) y) = _
    congr 1
    rw [paste_px_in _ _ _ _ _ _ (by omega) (by simp only [paste_w]; omega)
      (by omega) (by simp only [paste_h]; omega)]
    have hpos : (((strip.w - o + x : Nat) : Int) - ((strip.w : Int) - o)).toNat = x := by
      omega
    rw [hpos]
    simp only [Int.sub_zero, Int.toNat_natCast]
    rw [paste_px_zero _ _ x y (by simp only [seamBandLeftImg_w]; omega)
      (by simp only [seamBandLeftImg_h]; omega)]
  · intro x y ho hsw hy hyb hx
    have hb : blendStrip base strip o .up
        = .ok (((Img.new base.w (base.h + (strip.h - o)) 0).paste
            (strip.crop 0 0 strip.w ((strip.h : Int) - o)) 0 0).paste
            (base.paste (seamBandUpImg base strip o) 0 0) 0 ((strip.h : Int) - o)) := by
      unfold blendStrip
      dsimp only
      rw [if_pos (Or.inr hsw.symm), seamBandUp_some base strip o hsw]
      dsimp only
      rw [if_pos ho]
    rw [hb]
    show Except.ok ((((Img.new base.w (base.h + (strip.h - o)) 0).paste
      (strip.crop 0 0 strip.w ((strip.h : Int) - o)) 0 0).paste
      (base.paste (seamBandUpImg base strip o) 0 0)
      0 ((strip.h : Int) - o)).px x (strip.h - o + y)) = _
    congr 1
    rw [paste_px_in _ _ _ _ _ _ (by omega) (by simp only [paste_w]; omega)
      (by omega) (by simp only [paste_h]; omega)]
    have hpos : (((strip.h - o + y : Nat) : Int) - ((strip.h : Int) - o)).toNat = y := by
      omega
    rw [hpos]
    simp only [Int.sub_zero, Int.toNat_natCast]
    rw [paste_px_zero _ _ x y (by simp only [seamBandUpImg_w]; omega)
      (by simp only [seamBandUpImg_h]; omega)]

/-- Witness for C10 at small concrete images in all four directions. -/
theorem c10_band_discarded_or_retained_witness :
    (blendStrip (Img.new 3 2 7) (Img.new 2 2 9) 1 Dir.right).map (fun out => out.px 2 0)
      = .ok ((Img.new 3 2 7).px 2 0) ∧
    (blendStrip (Img.new 2 3 7) (Img.new 2 2 9) 1 Dir.down).map (fun out => out.px 0 2)
      = .ok ((Img.new 2 3 7).px 0 2) ∧
    (blendStrip (Img.new 3 2 7) (Img.new 2 2 9) 1 Dir.left).map (fun out => out.px 1 0)
      = .ok ((seamBandLeftImg (Img.new 3 2 7) (Img.new 2 2 9) 1).px 0 0) ∧
    (blendStrip (Img.new 2 3 7) (Img.new 2 2 9) 1 Dir.up).map (fun out => out.px 0 1)
      = .ok ((seamBandUpImg (Img.new 2 3 7) (Img.new 2 2 9) 1).px 0 0) :=
  ⟨(c10_band_discarded_or_retained (Img.new 3 2 7) (Img.new 2 2 9) 1).1 2 0
      (by decide) rfl (by decide) (by decide) (by decide) (by decide),
    (c10_band_discarded_or_retained (Img.new 2 3 7) (Img.new 2 2 9) 1).2.1 0 2
      (by decide) rfl (by decide) (by decide) (by decide) (by decide),
    (c10_band_discarded_or_retained (Img.new 3 2 7) (Img.new 2 2 9) 1).2.2.1 0 0
      (by decide) rfl (by decide) (by decide) (by decide),
    (c10_band_discarded_or_retained (Img.new 2 3 7) (Img.new 2 2 9) 1).2.2.2 0 0
      (by decide) rfl (by decide) (by decide) (by decide)⟩

/-- C1: evaluation of the landscape pipeline at the failing input, on
the fallback branch (reached here through a failing provider).  The
base is white except for a black column at x = 100.  Center
preservation requires output pixel (384+99, 0) to equal base pixel
(99, 0) = 255, but the left fill loop of the fallback pastes the
256-wide blurred left extension at every x in 0..383 after the center
was pasted, overwriting output columns 384..638 with blurred base
columns shifted by one: the output pixel is 204. -/
theorem c1_center_not_preserved_fallback :
    colBase.px 99 0 = 255 ∧
    (outpaintLandscape false failProvider colBase []).px (384 + 99) 0 = 204 := by
  constructor
  · rfl
  · have hL : outpaintLandscapeTry failProvider colBase [] = .error .synthesisFailed :=
      landscape_try_fails failProvider colBase [] rfl rfl (Or.inl rfl)
    rw [landscape_error_fallback failProvider colBase [] _ hL]
    decide

end CGen
